import Mathlib

/-!
Verification of the medicine-finder geospatial core.

The repository has two cooperating distance computations:
  - a query-side stored procedure `calculate_distance` (haversine, full
    precision) used by `search_medicines_nearby` for radius filtering and
    distance reporting;
  - a client-side location store (zustand) with `getDistanceFrom`
    (same haversine, rounded to 2 decimal places), `setLocation`,
    `clearLocation` and `getUserLocation`.

Real numbers model the numeric types (SQL DECIMAL, JS number); the
trigonometric functions are those of Mathlib.  `atan2` is defined below
following the C convention shared by PostgreSQL and JavaScript.
-/

/-- Degrees to radians, as in the client helper `toRad` and the SQL
function `radians`. -/
noncomputable def toRad (deg : ℝ) : ℝ := deg * (Real.pi / 180)

/-- Two-argument arctangent with the C convention used by both PostgreSQL
`atan2` and JavaScript `Math.atan2`. -/
noncomputable def atan2 (y x : ℝ) : ℝ :=
  if 0 < x then Real.arctan (y / x)
  else if x < 0 then
    (if 0 ≤ y then Real.arctan (y / x) + Real.pi else Real.arctan (y / x) - Real.pi)
  else
    (if 0 < y then Real.pi / 2 else if y < 0 then -(Real.pi / 2) else 0)

/-- The intermediate haversine quantity
`a = sin^2(dlat/2) + cos(lat1) cos(lat2) sin^2(dlon/2)`, shared verbatim by
the SQL function `calculate_distance` and the client `getDistanceFrom`. -/
noncomputable def haversineA (lat1 lon1 lat2 lon2 : ℝ) : ℝ :=
  Real.sin (toRad (lat2 - lat1) / 2) * Real.sin (toRad (lat2 - lat1) / 2) +
    Real.cos (toRad lat1) * Real.cos (toRad lat2) *
      (Real.sin (toRad (lon2 - lon1) / 2) * Real.sin (toRad (lon2 - lon1) / 2))

/-- The SQL helper function `calculate_distance(lat1, lon1, lat2, lon2)`:
haversine distance in km with R = 6371, returned at full precision. -/
noncomputable def calculate_distance (lat1 lon1 lat2 lon2 : ℝ) : ℝ :=
  6371 * (2 * atan2 (Real.sqrt (haversineA lat1 lon1 lat2 lon2))
    (Real.sqrt (1 - haversineA lat1 lon1 lat2 lon2)))

/-- JavaScript `Math.round`: nearest integer, halves toward positive
infinity. -/
noncomputable def jsRound (x : ℝ) : ℝ := (⌊x + 1 / 2⌋ : ℤ)

/-- The last-known user location held by the client store; the success
path of `getUserLocation` also records the sensor accuracy. -/
structure Location where
  lat : ℝ
  lng : ℝ
  accuracy : Option ℝ := none

/-- The client location store state: `userLocation`, `locationError`,
`isLocating`, as created by `useLocationStore`. -/
structure LocationState where
  userLocation : Option Location
  locationError : Option String
  isLocating : Bool

/-- Initial state of the client location store. -/
def initialLocationState : LocationState :=
  { userLocation := none, locationError := none, isLocating := false }

/-- The client mutator `setLocation(lat, lng)`: zustand `set` merges the
given fields, so `isLocating` is untouched. -/
def setLocation (st : LocationState) (lat lng : ℝ) : LocationState :=
  { st with userLocation := some { lat := lat, lng := lng }, locationError := none }

/-- The client mutator `clearLocation()`. -/
def clearLocation (st : LocationState) : LocationState :=
  { st with userLocation := none, locationError := none }

/-- The client `getDistanceFrom(lat, lng)`: `null` when no user location
is set, otherwise the haversine distance from the stored location,
rounded to 2 decimal places via `Math.round(d * 100) / 100`. -/
noncomputable def getDistanceFrom (st : LocationState) (lat lng : ℝ) : Option ℝ :=
  match st.userLocation with
  | none => none
  | some userLocation =>
    some (jsRound (6371 *
      (2 * atan2 (Real.sqrt (haversineA userLocation.lat userLocation.lng lat lng))
        (Real.sqrt (1 - haversineA userLocation.lat userLocation.lng lat lng))) * 100) / 100)

/-- Error codes of the browser geolocation error callback. -/
inductive GeoErrorCode
  | permissionDenied
  | positionUnavailable
  | timeout
  | other

/-- The environment outcomes `getUserLocation` can observe: geolocation
missing from the browser, a position callback, or an error callback. -/
inductive GeoOutcome
  | unsupported
  | success (lat lng accuracy : ℝ)
  | failure (code : GeoErrorCode)

/-- The error message chosen by the switch in the error callback. -/
def geoErrorMessage : GeoErrorCode → String
  | .permissionDenied => "Location permission denied. Please enable location access."
  | .positionUnavailable => "Location information unavailable."
  | .timeout => "Location request timed out."
  | .other => "Unable to get your location"

/-- The client `getUserLocation()`: on entry it sets
`isLocating := true, locationError := null`; each terminating path then
updates the store and resolves or rejects.  Modelled as a function from
the initial state and the observed outcome to the final state paired with
the promise result. -/
def getUserLocation (st : LocationState) (o : GeoOutcome) :
    LocationState × Except String Location :=
  let st1 : LocationState := { st with isLocating := true, locationError := none }
  match o with
  | .unsupported =>
      ({ st1 with locationError := some "Geolocation is not supported by your browser",
                  isLocating := false },
        .error "Geolocation is not supported by your browser")
  | .success lat lng accuracy =>
      ({ st1 with userLocation := some { lat := lat, lng := lng, accuracy := some accuracy },
                  isLocating := false },
        .ok { lat := lat, lng := lng, accuracy := some accuracy })
  | .failure code =>
      ({ st1 with locationError := some (geoErrorMessage code), isLocating := false },
        .error (geoErrorMessage code))

/-! ### The database rows and the nearby-search stored procedure -/

/-- A row of the `medicines` table (the columns read by the search). -/
structure Medicine where
  id : Nat
  name : String
  generic_name : String
  price : ℝ
  quantity : Int
  image_url : String
  store_id : Nat
  is_available : Bool

/-- A row of the `stores` table (the columns read by the search). -/
structure Store where
  id : Nat
  store_name : String
  address : String
  latitude : ℝ
  longitude : ℝ
  phone : String
  is_open : Bool

/-- The two tables the search reads. -/
structure Database where
  medicines : List Medicine
  stores : List Store

/-- The parameters of `search_medicines_nearby`. -/
structure Query where
  search_term : String
  user_lat : ℝ
  user_lon : ℝ
  radius_km : ℝ

/-- The SQL default for the `radius_km` parameter. -/
def defaultRadiusKm : ℝ := 10

/-- One row of the table returned by `search_medicines_nearby`. -/
structure SearchResult where
  medicine_id : Nat
  medicine_name : String
  generic_name : String
  price : ℝ
  quantity : Int
  image_url : String
  store_id : Nat
  store_name : String
  store_address : String
  store_lat : ℝ
  store_lon : ℝ
  store_phone : String
  distance_km : ℝ

/-- Prefix test on character lists. -/
def charsStartWith : List Char → List Char → Bool
  | _, [] => true
  | [], _ :: _ => false
  | c :: cs, p :: ps => c == p && charsStartWith cs ps

/-- Substring test on character lists. -/
def charsContain : List Char → List Char → Bool
  | [], pat => pat.isEmpty
  | c :: rest, pat => charsStartWith (c :: rest) pat || charsContain rest pat

/-- Plain case-insensitive substring test.  This is the property the
specification wording ascribes to the name filter; the SQL `ILIKE`
operator the code actually uses is the more permissive pattern match
`likeMatch` below, and the two coincide only for terms free of the
LIKE metacharacters. -/
def strContains (s pat : String) : Bool :=
  charsContain (s.data.map Char.toLower) (pat.data.map Char.toLower)

/-- SQL LIKE pattern matching over character lists
(`likeMatch pattern text`): a percent sign matches any sequence of
characters including the empty one, an underscore matches exactly one
character, a backslash escapes the following character so that it is
matched literally, and every other character matches itself.  A pattern
ending in a lone backslash is an error in PostgreSQL and matches
nothing here; the patterns built by the search always end in a percent
sign, so that case is unreachable. -/
def likeMatch : List Char → List Char → Bool
  | [], s => s.isEmpty
  | '%' :: ps, s => s.tails.any fun t => likeMatch ps t
  | '_' :: ps, s =>
    match s with
    | [] => false
    | _ :: xs => likeMatch ps xs
  | '\\' :: c :: ps, s =>
    match s with
    | [] => false
    | x :: xs => x == c && likeMatch ps xs
  | ['\\'], _ => false
  | c :: ps, s =>
    match s with
    | [] => false
    | x :: xs => x == c && likeMatch ps xs

/-- The name filter of the stored procedure:
`s ILIKE (percent || term || percent)`.  ILIKE compares literal
characters case-insensitively, modelled by lowercasing both sides;
percent, underscore and backslash are unchanged by lowercasing, so the
metacharacter structure is preserved. -/
def ilikeContains (s term : String) : Bool :=
  likeMatch ('%' :: term.data.map Char.toLower ++ ['%']) (s.data.map Char.toLower)

/-- `JOIN stores s ON m.store_id = s.id` over the two tables. -/
def joinRows (db : Database) : List (Medicine × Store) :=
  db.medicines.flatMap fun m =>
    (db.stores.filter fun s => s.id == m.store_id).map fun s => (m, s)

/-- The WHERE clause of `search_medicines_nearby`. -/
def rowPred (q : Query) (m : Medicine) (s : Store) : Prop :=
  m.is_available = true ∧ 0 < m.quantity ∧ s.is_open = true ∧
    (ilikeContains m.name q.search_term = true ∨
      ilikeContains m.generic_name q.search_term = true) ∧
    calculate_distance q.user_lat q.user_lon s.latitude s.longitude ≤ q.radius_km

/-- The SELECT projection of `search_medicines_nearby`, including the
computed `distance_km` column (full-precision `calculate_distance`). -/
noncomputable def mkResult (q : Query) (m : Medicine) (s : Store) : SearchResult :=
  { medicine_id := m.id
    medicine_name := m.name
    generic_name := m.generic_name
    price := m.price
    quantity := m.quantity
    image_url := m.image_url
    store_id := s.id
    store_name := s.store_name
    store_address := s.address
    store_lat := s.latitude
    store_lon := s.longitude
    store_phone := s.phone
    distance_km := calculate_distance q.user_lat q.user_lon s.latitude s.longitude }

/-- The comparison `ORDER BY distance_km ASC` sorts on. -/
def byDistance (a b : SearchResult) : Prop := a.distance_km ≤ b.distance_km

instance : IsTotal SearchResult byDistance := ⟨fun a b => le_total a.distance_km b.distance_km⟩

instance : IsTrans SearchResult byDistance := ⟨fun _ _ _ => le_trans⟩

section
open Classical

/-- `ORDER BY distance_km ASC`, realised as a stable insertion sort (ties
keep the input order, refining the unspecified SQL tie order). -/
noncomputable def orderByDistance (l : List SearchResult) : List SearchResult :=
  l.insertionSort byDistance

/-- The stored procedure `search_medicines_nearby(search_term, user_lat,
user_lon, radius_km)`: join, WHERE filter, projection, ORDER BY distance
ascending. -/
noncomputable def search_medicines_nearby (db : Database) (q : Query) : List SearchResult :=
  orderByDistance
    (((joinRows db).filter fun p => decide (rowPred q p.1 p.2)).map
      fun p => mkResult q p.1 p.2)

end

/-! ### Helper lemmas about the distance computation -/

theorem toRad_zero : toRad 0 = 0 := by simp [toRad]

theorem haversineA_self (lat lon : ℝ) : haversineA lat lon lat lon = 0 := by
  simp [haversineA, toRad]

theorem atan2_zero_one : atan2 0 1 = 0 := by
  simp [atan2, Real.arctan_zero]

theorem calc_dist_self (lat lon : ℝ) : calculate_distance lat lon lat lon = 0 := by
  rw [calculate_distance, haversineA_self]
  norm_num [atan2_zero_one]

theorem sin_sq_neg_arg (x : ℝ) : Real.sin (-x) * Real.sin (-x) = Real.sin x * Real.sin x := by
  rw [Real.sin_neg]
  ring

theorem haversineA_symm (lat1 lon1 lat2 lon2 : ℝ) :
    haversineA lat2 lon2 lat1 lon1 = haversineA lat1 lon1 lat2 lon2 := by
  unfold haversineA
  have h1 : toRad (lat1 - lat2) = -(toRad (lat2 - lat1)) := by unfold toRad; ring
  have h2 : toRad (lon1 - lon2) = -(toRad (lon2 - lon1)) := by unfold toRad; ring
  rw [h1, h2, neg_div, neg_div, sin_sq_neg_arg, sin_sq_neg_arg]
  ring

theorem calc_dist_symm (lat1 lon1 lat2 lon2 : ℝ) :
    calculate_distance lat1 lon1 lat2 lon2 = calculate_distance lat2 lon2 lat1 lon1 := by
  unfold calculate_distance
  rw [haversineA_symm]

theorem atan2_nonneg {y : ℝ} (x : ℝ) (hy : 0 ≤ y) : 0 ≤ atan2 y x := by
  have hpi := Real.pi_pos
  have harct := Real.neg_pi_div_two_lt_arctan (y / x)
  unfold atan2
  rcases lt_trichotomy x 0 with hx | hx | hx
  · rw [if_neg (by linarith), if_pos hx, if_pos hy]
    linarith
  · subst hx
    rw [if_neg (lt_irrefl 0), if_neg (lt_irrefl 0)]
    rcases lt_or_eq_of_le hy with h | h
    · rw [if_pos h]
      linarith
    · rw [if_neg (show ¬0 < y by rw [← h]; exact lt_irrefl 0),
        if_neg (show ¬y < 0 by rw [← h]; exact lt_irrefl 0)]
  · rw [if_pos hx, ← Real.arctan_zero]
    exact Real.arctan_strictMono.monotone (div_nonneg hy hx.le)

theorem calc_dist_nonneg (lat1 lon1 lat2 lon2 : ℝ) :
    0 ≤ calculate_distance lat1 lon1 lat2 lon2 := by
  unfold calculate_distance
  have h := atan2_nonneg (Real.sqrt (1 - haversineA lat1 lon1 lat2 lon2))
    (Real.sqrt_nonneg (haversineA lat1 lon1 lat2 lon2))
  positivity

/-! ### Helper lemmas about the client store and the search -/

theorem getDistanceFrom_some (u : Location) (e : Option String) (b : Bool) (lat lng : ℝ) :
    getDistanceFrom ⟨some u, e, b⟩ lat lng
      = some (jsRound (calculate_distance u.lat u.lng lat lng * 100) / 100) := rfl

theorem mem_joinRows {db : Database} {m : Medicine} {s : Store} :
    (m, s) ∈ joinRows db ↔ m ∈ db.medicines ∧ s ∈ db.stores ∧ s.id = m.store_id := by
  unfold joinRows
  rw [List.mem_flatMap]
  constructor
  · rintro ⟨m', hm', hmem⟩
    rw [List.mem_map] at hmem
    obtain ⟨s', hs', heq⟩ := hmem
    obtain ⟨hm, hs⟩ := Prod.mk.injEq .. ▸ heq
    subst hm hs
    rw [List.mem_filter] at hs'
    exact ⟨hm', hs'.1, by simpa using hs'.2⟩
  · rintro ⟨hm, hs, hid⟩
    refine ⟨m, hm, ?_⟩
    rw [List.mem_map]
    refine ⟨s, ?_, rfl⟩
    rw [List.mem_filter]
    exact ⟨hs, by simpa using hid⟩

open Classical in
theorem mem_search_iff (db : Database) (q : Query) (r : SearchResult) :
    r ∈ search_medicines_nearby db q ↔
      ∃ m s, m ∈ db.medicines ∧ s ∈ db.stores ∧ s.id = m.store_id ∧
        rowPred q m s ∧ r = mkResult q m s := by
  unfold search_medicines_nearby orderByDistance
  rw [List.mem_insertionSort, List.mem_map]
  constructor
  · rintro ⟨⟨m, s⟩, hp, rfl⟩
    rw [List.mem_filter] at hp
    obtain ⟨hj, hpred⟩ := hp
    obtain ⟨hm, hs, hid⟩ := mem_joinRows.mp hj
    exact ⟨m, s, hm, hs, hid, of_decide_eq_true hpred, rfl⟩
  · rintro ⟨m, s, hm, hs, hid, hpred, rfl⟩
    refine ⟨(m, s), ?_, rfl⟩
    rw [List.mem_filter]
    exact ⟨mem_joinRows.mpr ⟨hm, hs, hid⟩, decide_eq_true hpred⟩

open Classical in
theorem search_empty_of_neg_radius (db : Database) (q : Query) (h : q.radius_km < 0) :
    search_medicines_nearby db q = [] := by
  unfold search_medicines_nearby orderByDistance
  have hnil : ((joinRows db).filter fun p => decide (rowPred q p.1 p.2)) = [] := by
    rw [List.filter_eq_nil_iff]
    intro p _
    rw [decide_eq_true_eq]
    intro hpred
    have hd := hpred.2.2.2.2
    have hnn := calc_dist_nonneg q.user_lat q.user_lon p.2.latitude p.2.longitude
    linarith
  rw [hnil]
  rfl

/-! ### A concrete query scenario used to instantiate the theorems -/

/-- An open store at latitude 10, longitude 20. -/
def exStore : Store :=
  { id := 1, store_name := "Central Pharmacy", address := "Main Street 1",
    latitude := 10, longitude := 20, phone := "123", is_open := true }

/-- An available medicine with positive stock at that store. -/
def exMedicine : Medicine :=
  { id := 7, name := "Paracetamol", generic_name := "Acetaminophen", price := 5,
    quantity := 3, image_url := "", store_id := 1, is_available := true }

/-- A database with one medicine and one store. -/
def exDb : Database := { medicines := [exMedicine], stores := [exStore] }

/-- A query issued from the store location with the default radius. -/
def exQuery : Query :=
  { search_term := "para", user_lat := 10, user_lon := 20, radius_km := 10 }

/-- The same query with a negative radius. -/
def exQueryNeg : Query :=
  { search_term := "para", user_lat := 10, user_lon := 20, radius_km := -1 }

/-- The single row `search_medicines_nearby` returns for `exQuery`. -/
noncomputable def exResult : SearchResult := mkResult exQuery exMedicine exStore

theorem exRowPred : rowPred exQuery exMedicine exStore := by
  refine ⟨rfl, by norm_num [exMedicine], rfl, Or.inl (by decide), ?_⟩
  show calculate_distance 10 20 10 20 ≤ 10
  rw [calc_dist_self]
  norm_num

open Classical in
theorem search_example : search_medicines_nearby exDb exQuery = [exResult] := by
  unfold search_medicines_nearby orderByDistance
  rw [show joinRows exDb = [(exMedicine, exStore)] from rfl]
  rw [List.filter_cons, if_pos (decide_eq_true exRowPred), List.filter_nil]
  rfl

/-- An open store at the same coordinate, for the wildcard scenario. -/
def cexStore : Store :=
  { id := 2, store_name := "North Pharmacy", address := "High Street 2",
    latitude := 10, longitude := 20, phone := "456", is_open := true }

/-- An available medicine named `Abidec` at that store. -/
def cexMedicine : Medicine :=
  { id := 8, name := "Abidec", generic_name := "Multivitamin", price := 7,
    quantity := 2, image_url := "", store_id := 2, is_available := true }

/-- A database with the `Abidec` item only. -/
def cexDb : Database := { medicines := [cexMedicine], stores := [cexStore] }

/-- A query whose term `b_d` carries the ILIKE underscore wildcard,
issued from the store location with the default radius. -/
def cexQuery : Query :=
  { search_term := "b_d", user_lat := 10, user_lon := 20, radius_km := 10 }

/-- The single row `search_medicines_nearby` returns for `cexQuery`. -/
noncomputable def cexResult : SearchResult := mkResult cexQuery cexMedicine cexStore

theorem cexRowPred : rowPred cexQuery cexMedicine cexStore := by
  refine ⟨rfl, by norm_num [cexMedicine], rfl, Or.inl (by decide), ?_⟩
  show calculate_distance 10 20 10 20 ≤ 10
  rw [calc_dist_self]
  norm_num

open Classical in
theorem search_cex : search_medicines_nearby cexDb cexQuery = [cexResult] := by
  unfold search_medicines_nearby orderByDistance
  rw [show joinRows cexDb = [(cexMedicine, cexStore)] from rfl]
  rw [List.filter_cons, if_pos (decide_eq_true cexRowPred), List.filter_nil]
  rfl

/-! ### The antipodal fixture and the rounding gap -/

theorem haversineA_antipodal : haversineA 0 0 0 180 = 1 := by
  unfold haversineA toRad
  rw [show ((0:ℝ) - 0) * (Real.pi / 180) / 2 = 0 by ring,
    show ((180:ℝ) - 0) * (Real.pi / 180) / 2 = Real.pi / 2 by ring,
    show (0:ℝ) * (Real.pi / 180) = 0 by ring]
  rw [Real.sin_zero, Real.cos_zero, Real.sin_pi_div_two]
  ring

theorem atan2_one_zero : atan2 1 0 = Real.pi / 2 := by
  unfold atan2
  rw [if_neg (lt_irrefl (0:ℝ)), if_neg (lt_irrefl (0:ℝ)), if_pos (one_pos (α := ℝ))]

theorem calc_dist_antipodal : calculate_distance 0 0 0 180 = 6371 * Real.pi := by
  unfold calculate_distance
  rw [haversineA_antipodal, sub_self, Real.sqrt_zero, Real.sqrt_one, atan2_one_zero]
  ring

theorem rounded_pi_ne : jsRound (6371 * Real.pi * 100) / 100 ≠ 6371 * Real.pi := by
  intro h
  have hirr : Irrational ((637100 : ℕ) * Real.pi) :=
    irrational_pi.nat_mul (by norm_num)
  have h2 : ((637100 : ℕ) : ℝ) * Real.pi = ((⌊6371 * Real.pi * 100 + 1 / 2⌋ : ℤ) : ℝ) := by
    unfold jsRound at h
    push_cast
    linarith
  exact hirr.ne_int _ h2

/-! ### Claim theorems -/

/-- C1 counterexample: the WHERE clause matches with SQL ILIKE pattern
semantics, not plain substring containment.  For the search term
underscore-bearing `b_d`, the item named `Abidec` is returned — the
underscore wildcard matches the letter i — even though `b_d` is not a
case-insensitive substring of `Abidec` or of its generic name, so the
substring conjunct of the claim fails on this returned record. -/
theorem C1_substring_conjunct_cex :
    cexResult ∈ search_medicines_nearby cexDb cexQuery ∧
    strContains cexResult.medicine_name cexQuery.search_term = false ∧
    strContains cexResult.generic_name cexQuery.search_term = false :=
  ⟨by rw [search_cex]; exact List.mem_singleton.mpr rfl, by decide, by decide⟩

/-- C1 (amended): every record returned by `search_medicines_nearby`
comes from a medicine row and its joined store row that satisfy the
full WHERE predicate — availability flag true, quantity strictly
positive, store open, the term matching the name or the generic name
under case-insensitive ILIKE semantics with the term wrapped in percent
wildcards (percent and underscore in the term act as wildcards and
backslash escapes), and `calculate_distance` from the query coordinate
to the store at most `radius_km` — and in particular its `distance_km`
column never exceeds the caller-supplied `radius_km`. -/
theorem C1_search_results_satisfy_filter (db : Database) (q : Query) (r : SearchResult)
    (hr : r ∈ search_medicines_nearby db q) :
    ∃ m ∈ db.medicines, ∃ s ∈ db.stores,
      m.store_id = s.id ∧ m.is_available = true ∧ 0 < m.quantity ∧ s.is_open = true ∧
      (ilikeContains m.name q.search_term = true ∨
        ilikeContains m.generic_name q.search_term = true) ∧
      calculate_distance q.user_lat q.user_lon s.latitude s.longitude ≤ q.radius_km ∧
      r = mkResult q m s ∧ r.distance_km ≤ q.radius_km := by
  obtain ⟨m, s, hm, hs, hid, hpred, rfl⟩ := (mem_search_iff db q r).mp hr
  obtain ⟨h1, h2, h3, h4, h5⟩ := hpred
  exact ⟨m, hm, s, hs, hid.symm, h1, h2, h3, h4, h5, rfl, h5⟩

theorem C1_search_results_satisfy_filter_witness :
    ∃ m ∈ exDb.medicines, ∃ s ∈ exDb.stores,
      m.store_id = s.id ∧ m.is_available = true ∧ 0 < m.quantity ∧ s.is_open = true ∧
      (ilikeContains m.name exQuery.search_term = true ∨
        ilikeContains m.generic_name exQuery.search_term = true) ∧
      calculate_distance exQuery.user_lat exQuery.user_lon s.latitude s.longitude
        ≤ exQuery.radius_km ∧
      exResult = mkResult exQuery m s ∧ exResult.distance_km ≤ exQuery.radius_km :=
  C1_search_results_satisfy_filter exDb exQuery exResult
    (by rw [search_example]; exact List.mem_singleton.mpr rfl)

section
open Classical

/-- C2: the list returned by `search_medicines_nearby` is sorted in
ascending order of the computed `distance_km` (hence every pair of
results, adjacent ones in particular, is in nondecreasing distance
order). -/
theorem C2_search_results_sorted_by_distance (db : Database) (q : Query) :
    (search_medicines_nearby db q).Sorted byDistance :=
  List.sorted_insertionSort byDistance _

end

/-- C3: applying the distance computation to identical endpoints yields
exactly 0 — for the SQL `calculate_distance` and for the client
`getDistanceFrom` after `setLocation` stores the same coordinate — and
on this path the second argument handed to `atan2` is `sqrt 1 = 1`, not
0, so `atan2` is never invoked as `atan2(0, 0)`. -/
theorem C3_distance_self_is_zero (lat lng : ℝ) (st : LocationState) :
    calculate_distance lat lng lat lng = 0 ∧
    getDistanceFrom (setLocation st lat lng) lat lng = some 0 ∧
    Real.sqrt (1 - haversineA lat lng lat lng) = 1 := by
  refine ⟨calc_dist_self lat lng, ?_, ?_⟩
  · have h : getDistanceFrom (setLocation st lat lng) lat lng
        = some (jsRound (calculate_distance lat lng lat lng * 100) / 100) := rfl
    rw [h, calc_dist_self]
    norm_num [jsRound]
  · rw [haversineA_self]
    norm_num

/-- C4: the distance computation is symmetric in its two endpoints, both
for the SQL `calculate_distance` and for the client `getDistanceFrom`
with the stored location and the argument exchanged (the values are
exactly equal, hence within any tolerance). -/
theorem C4_distance_symmetric (lat1 lon1 lat2 lon2 : ℝ) (st1 st2 : LocationState) :
    calculate_distance lat1 lon1 lat2 lon2 = calculate_distance lat2 lon2 lat1 lon1 ∧
    getDistanceFrom (setLocation st1 lat1 lon1) lat2 lon2
      = getDistanceFrom (setLocation st2 lat2 lon2) lat1 lon1 := by
  refine ⟨calc_dist_symm lat1 lon1 lat2 lon2, ?_⟩
  have h1 : getDistanceFrom (setLocation st1 lat1 lon1) lat2 lon2
      = some (jsRound (calculate_distance lat1 lon1 lat2 lon2 * 100) / 100) := rfl
  have h2 : getDistanceFrom (setLocation st2 lat2 lon2) lat1 lon1
      = some (jsRound (calculate_distance lat2 lon2 lat1 lon1 * 100) / 100) := rfl
  rw [h1, h2, calc_dist_symm lat1 lon1 lat2 lon2]

/-- C5 counterexample: at the in-range pair (0, 0) and (0, 180) the
client `getDistanceFrom` (location set to the first coordinate) and the
query-side `calculate_distance` return different values: the raw
distance is `6371 * pi`, which the client rounds to 2 decimal places,
and `6371 * pi` is not a multiple of 1/100. -/
theorem C5_client_differs_from_query_cex :
    getDistanceFrom ⟨some ⟨0, 0, none⟩, none, false⟩ 0 180
      ≠ some (calculate_distance 0 0 0 180) := by
  have h1 : getDistanceFrom ⟨some ⟨0, 0, none⟩, none, false⟩ 0 180
      = some (jsRound (calculate_distance 0 0 0 180 * 100) / 100) := rfl
  rw [h1, calc_dist_antipodal]
  simp only [ne_eq, Option.some.injEq]
  exact rounded_pi_ne

/-- C5 (amended): the client-side utility computes the same haversine
formula with R = 6371 as the query-side `calculate_distance`, but not
the same rounding: with the user location set to the first coordinate,
`getDistanceFrom` returns exactly `Math.round(100 * d) / 100` of the
full-precision query-side distance `d`, so the two paths agree only up
to that 2-decimal rounding and differ whenever `100 * d` is not an
integer. -/
theorem C5_client_is_rounded_query_distance (st : LocationState) (lat0 lng0 lat lng : ℝ) :
    getDistanceFrom (setLocation st lat0 lng0) lat lng
      = some (jsRound (calculate_distance lat0 lng0 lat lng * 100) / 100) := rfl

/-- C6: the reporting path rounds and the filtering path does not: the
client `getDistanceFrom` returns the floor-based 2-decimal rounding of
the full-precision distance, while every row of
`search_medicines_nearby` carries `distance_km` equal to the unrounded
`calculate_distance` value, and it is that unrounded value that is
compared against `radius_km`. -/
theorem C6_rounding_asymmetry :
    (∀ (st : LocationState) (lat0 lng0 lat lng : ℝ),
      getDistanceFrom (setLocation st lat0 lng0) lat lng
        = some (((⌊calculate_distance lat0 lng0 lat lng * 100 + 1 / 2⌋ : ℤ) : ℝ) / 100)) ∧
    (∀ (db : Database) (q : Query) (r : SearchResult),
      r ∈ search_medicines_nearby db q →
        r.distance_km = calculate_distance q.user_lat q.user_lon r.store_lat r.store_lon ∧
        calculate_distance q.user_lat q.user_lon r.store_lat r.store_lon ≤ q.radius_km) := by
  refine ⟨fun st lat0 lng0 lat lng => rfl, fun db q r hr => ?_⟩
  obtain ⟨m, s, _, _, _, hpred, rfl⟩ := (mem_search_iff db q r).mp hr
  exact ⟨rfl, hpred.2.2.2.2⟩

theorem C6_rounding_asymmetry_witness :
    exResult.distance_km
        = calculate_distance exQuery.user_lat exQuery.user_lon
            exResult.store_lat exResult.store_lon ∧
      calculate_distance exQuery.user_lat exQuery.user_lon
          exResult.store_lat exResult.store_lon ≤ exQuery.radius_km :=
  C6_rounding_asymmetry.2 exDb exQuery exResult
    (by rw [search_example]; exact List.mem_singleton.mpr rfl)

/-- C7 counterexample: `search_medicines_nearby` has no validation
branch at all — it is a total query over the tables — and for the
negative radius -1, even on a database holding an available, in-stock,
matching item whose open store sits exactly at the query coordinate, it
silently returns the empty table instead of failing fast with a
validation error. -/
theorem C7_nonpositive_radius_no_validation_cex :
    search_medicines_nearby exDb exQueryNeg = [] :=
  search_empty_of_neg_radius exDb exQueryNeg (by norm_num [exQueryNeg])

/-- C7 (amended): the nearby search performs no radius validation and
never fails fast: a query whose `radius_km` is negative is executed like
any other and silently yields the empty result list, because every
computed distance is non-negative and so no row passes the radius
filter. -/
theorem C7_negative_radius_silently_empty (db : Database) (q : Query)
    (h : q.radius_km < 0) :
    search_medicines_nearby db q = [] :=
  search_empty_of_neg_radius db q h

theorem C7_negative_radius_silently_empty_witness :
    exQueryNeg.radius_km < 0 ∧ search_medicines_nearby exDb exQueryNeg = [] :=
  ⟨by norm_num [exQueryNeg],
    C7_negative_radius_silently_empty exDb exQueryNeg (by norm_num [exQueryNeg])⟩

/-- C8: for every prior state and every pair of arguments,
`setLocation(lat, lng)` stores the coordinate as the new
`userLocation`, clears `locationError` to null, and leaves the
remaining field of the store (`isLocating`) unchanged. -/
theorem C8_setLocation_sets_coordinate_clears_error (st : LocationState) (lat lng : ℝ) :
    (setLocation st lat lng).userLocation = some ⟨lat, lng, none⟩ ∧
    (setLocation st lat lng).locationError = none ∧
    (setLocation st lat lng).isLocating = st.isLocating :=
  ⟨rfl, rfl, rfl⟩

/-- C9: when the store holds no current user location,
`getDistanceFrom(lat, lng)` returns null for every argument pair
instead of computing a distance or failing. -/
theorem C9_getDistanceFrom_null_without_location (st : LocationState)
    (h : st.userLocation = none) (lat lng : ℝ) :
    getDistanceFrom st lat lng = none := by
  unfold getDistanceFrom
  rw [h]

theorem C9_getDistanceFrom_null_without_location_witness :
    initialLocationState.userLocation = none ∧
      getDistanceFrom initialLocationState 3 4 = none :=
  ⟨rfl, C9_getDistanceFrom_null_without_location initialLocationState rfl 3 4⟩

/-- C10: every terminating path of `getUserLocation` — geolocation
unsupported, the success callback, or the error callback — leaves
`isLocating` false in the final store state, for every initial state. -/
theorem C10_getUserLocation_restores_isLocating (st : LocationState) (o : GeoOutcome) :
    (getUserLocation st o).1.isLocating = false := by
  cases o with
  | unsupported => rfl
  | success lat lng accuracy => rfl
  | failure code => rfl
